import Mathlib

/-!
Shallow embedding of the Lemventory/lemmy federation core:
`src/crates/api/src/post/like.rs` (vote application) and
`src/crates/apub/src/protocol/objects/page.rs` (Page object protocol).
-/

namespace Lemmy

/-- URLs are modelled as abstract identifiers carrying a total order:
`Ord` on `url::Url` compares the serialized string, and only that order (not
the string contents) is observable in the embedded code. -/
abbrev Url := Nat

/-- Error kinds (`LemmyErrorType`), restricted to the variants reachable from
the embedded functions.  `DownvoteNotAllowed` is the kind raised by the
spec-modelled `check_downvotes_enabled` (spec name: `DownvotesDisabled`);
`InvalidCommunity` is the kind raised by the spec-modelled
`verify_community_matches` (spec name: `AudienceMismatch`). -/
inductive LemmyErrorType where
  | CouldntLikePost
  | NoCommunityFoundInCc
  | PageDoesNotSpecifyGroup
  | PageDoesNotSpecifyCreator
  | DownvoteNotAllowed
  | PostNotFound
  | BannedFromCommunity
  | CommunityUnavailable
  | CommunityNotFound
  | InvalidCommunity
  | UpstreamDereferenceFailed
deriving DecidableEq, Repr

/-! ## Vote engine: `like_post` (src/crates/api/src/post/like.rs) -/

/-- A stored vote row, mirroring `PostLikeForm { post_id, person_id, score }`. -/
structure VoteRow where
  post_id : Nat
  person_id : Nat
  score : Int
deriving DecidableEq, Repr

/-- The slice of database state touched by `like_post`: the vote rows and the
post-read bookkeeping. -/
structure Db where
  votes : List VoteRow
  read_posts : List (Nat × Nat)
deriving DecidableEq, Repr

/-- Environment of `like_post`: outcomes of the external collaborator calls
(site config, post read, ban check, community state, community read). -/
structure LikeCtx where
  downvotes_enabled : Bool
  post_exists : Bool
  banned : Bool
  community_deleted_or_removed : Bool
  community_read_ok : Bool
deriving DecidableEq, Repr

/-- Modelled from the spec: `check_downvotes_enabled` (lemmy_api_common, not
under src/) fails when `score` is a downvote (-1) and downvotes are
administratively disabled. -/
def check_downvotes_enabled (score : Int) (enabled : Bool) :
    Except LemmyErrorType Unit :=
  if score = -1 ∧ enabled = false then .error .DownvoteNotAllowed else .ok ()

/-- Modelled from the spec: `PostLike::remove` (lemmy_db_schema, not under
src/) removes any existing vote row for (actor, post) unconditionally. -/
def PostLike.remove (votes : List VoteRow) (person_id post_id : Nat) :
    List VoteRow :=
  votes.filter (fun r => !(r.person_id == person_id && r.post_id == post_id))

/-- Modelled from the spec: `PostLike::like` (lemmy_db_schema, not under
src/) inserts the new vote row. -/
def PostLike.like (votes : List VoteRow) (form : VoteRow) : List VoteRow :=
  form :: votes

/-- Modelled from the spec: `mark_post_as_read` (lemmy_api_common, not under
src/) is idempotent bookkeeping that does not touch vote rows. -/
def mark_post_as_read (db : Db) (person_id post_id : Nat) : Db :=
  { db with read_posts := (person_id, post_id) :: db.read_posts }

/-- `like_post` from src/crates/api/src/post/like.rs, in state-passing style:
returns the call result together with the final database state.  The checks
run in source order (downvote gate, post read, community ban,
community deleted/removed), then the mutation: remove any existing like,
conditionally insert (`do_add` from line 61), mark the post read, and
finally read the community for the outbound activity (which can fail after
the mutation). -/
def like_post (ctx : LikeCtx) (db : Db) (person_id post_id : Nat)
    (score : Int) : Except LemmyErrorType Unit × Db :=
  match check_downvotes_enabled score ctx.downvotes_enabled with
  | .error e => (.error e, db)
  | .ok _ =>
    if ctx.post_exists = false then (.error .PostNotFound, db)
    else if ctx.banned = true then (.error .BannedFromCommunity, db)
    else if ctx.community_deleted_or_removed = true then
      (.error .CommunityUnavailable, db)
    else
      let votes1 := PostLike.remove db.votes person_id post_id
      let do_add := score != 0 && (score == 1 || score == -1)
      let votes2 :=
        if do_add then PostLike.like votes1 ⟨post_id, person_id, score⟩
        else votes1
      let db2 := mark_post_as_read { db with votes := votes2 } person_id post_id
      if ctx.community_read_ok = true then (.ok (), db2)
      else (.error .CommunityNotFound, db2)

/-- The vote rows stored for a given (actor, post) pair. -/
def votesFor (votes : List VoteRow) (person_id post_id : Nat) : List VoteRow :=
  votes.filter (fun r => r.person_id == person_id && r.post_id == post_id)

/-! ## Page object protocol (src/crates/apub/src/protocol/objects/page.rs) -/

/-- `PageType`: the accepted wire kinds of a post object. -/
inductive PageType where
  | Page
  | Article
  | Note
  | Video
  | Event
deriving DecidableEq, Repr

/-- `PersonOrGroupType` (crate::fetcher::user_or_community). -/
inductive PersonOrGroupType where
  | Person
  | Group
deriving DecidableEq, Repr

/-- `AttributedToPeertube { type, id }`. -/
structure AttributedToPeertube where
  kind : PersonOrGroupType
  id : Url
deriving DecidableEq, Repr

/-- `AttributedTo`: either a single Lemmy creator id, or the Peertube fixed
two-element array of role-tagged ids (modelled as a pair). -/
inductive AttributedTo where
  | Lemmy (id : Url)
  | Peertube (pair : AttributedToPeertube × AttributedToPeertube)
deriving DecidableEq, Repr

/-- The fixed `[AttributedToPeertube; 2]` array as a list, in order, so that
`.iter().find(..)` is `List.find?`. -/
def AttributedTo.pairList (p : AttributedToPeertube × AttributedToPeertube) :
    List AttributedToPeertube :=
  [p.1, p.2]

/-- `MediaTypeMarkdownOrHtml` (activitypub_federation). -/
inductive MediaTypeMarkdownOrHtml where
  | Markdown
  | Html
deriving DecidableEq, Repr

/-- `Source`, kept abstract as its content text. -/
abbrev Source := String

/-- `ImageObject`, kept abstract as its url. -/
abbrev ImageObject := Url

/-- `LanguageTag`, kept abstract as its identifier. -/
abbrev LanguageTag := String

/-- `Link { href, media_type, type: LinkType, name }`.  The constant
`type: LinkType` tag (always the literal `Link`) is not stored. -/
structure Link where
  href : Url
  media_type : Option String
  name : Option String
deriving DecidableEq, Repr

/-- `Image { type: ImageType, url, name }`.  The constant `type: ImageType`
tag (always the literal `Image`) is not stored. -/
structure Image where
  url : Url
  name : Option String
deriving DecidableEq, Repr

/-- `Document { type: DocumentType, url, name }`.  The constant
`type: DocumentType` tag (always the literal `Document`) is not stored. -/
structure Document where
  url : Url
  name : Option String
deriving DecidableEq, Repr

/-- `Attachment`: serde-untagged union of the three wire shapes. -/
inductive Attachment where
  | Link (l : Link)
  | Image (i : Image)
  | Document (d : Document)
deriving DecidableEq, Repr

/-- `Attachment::url`. -/
def Attachment.url : Attachment → Url
  | .Link l => l.href
  | .Image i => i.url
  | .Document d => d.url

/-- `Attachment::alt_text`. -/
def Attachment.alt_text : Attachment → Option String
  | .Link l => l.name
  | .Image i => i.name
  | .Document d => d.name

/-- One raw wire element of the `attachment` array: the `type` discriminant
string together with the optional fields the three variants read. -/
structure RawAttachment where
  typ : String
  href : Option Url
  url : Option Url
  media_type : Option String
  name : Option String
deriving DecidableEq, Repr

/-- Structural parse of the `Link` variant: requires `href` and the
`type: "Link"` tag. -/
def parseLink (r : RawAttachment) : Option Link :=
  match r.href with
  | some h =>
    if r.typ = "Link" then some { href := h, media_type := r.media_type, name := r.name }
    else none
  | none => none

/-- Structural parse of the `Image` variant: requires `url` and the
`type: "Image"` tag. -/
def parseImage (r : RawAttachment) : Option Image :=
  match r.url with
  | some u => if r.typ = "Image" then some { url := u, name := r.name } else none
  | none => none

/-- Structural parse of the `Document` variant: requires `url` and the
`type: "Document"` tag. -/
def parseDocument (r : RawAttachment) : Option Document :=
  match r.url with
  | some u => if r.typ = "Document" then some { url := u, name := r.name } else none
  | none => none

/-- serde-untagged parse of `Attachment`: the first structurally matching
variant in declaration order Link, Image, Document. -/
def parseAttachment (r : RawAttachment) : Option Attachment :=
  match parseLink r with
  | some l => some (.Link l)
  | none =>
    match parseImage r with
    | some i => some (.Image i)
    | none => (parseDocument r).map .Document

/-- The wire shape Lemmy sends for an attachment with a given url and alt
text: a `Link` object. -/
def linkShape (u : Url) (a : Option String) : RawAttachment :=
  { typ := "Link", href := some u, url := none, media_type := none, name := a }

/-- The wire shape lotide sends: an `Image` object. -/
def imageShape (u : Url) (a : Option String) : RawAttachment :=
  { typ := "Image", href := none, url := some u, media_type := none, name := a }

/-- The wire shape mobilizon sends: a `Document` object. -/
def documentShape (u : Url) (a : Option String) : RawAttachment :=
  { typ := "Document", href := none, url := some u, media_type := none, name := a }

/-- The `Page` object after successful deserialization. -/
structure Page where
  kind : PageType
  id : Url
  attributed_to : AttributedTo
  «to» : List Url
  in_reply_to : Option String
  name : Option String
  cc : List Url
  content : Option String
  media_type : Option MediaTypeMarkdownOrHtml
  source : Option Source
  attachment : List Attachment
  image : Option ImageObject
  comments_enabled : Option Bool
  sensitive : Option Bool
  published : Option Nat
  updated : Option Nat
  language : Option LanguageTag
  audience : Option Url
deriving DecidableEq, Repr

/-- The slice of a locally stored post that `Page::is_locked_changed`
reads. -/
structure ApubPost where
  locked : Bool
deriving DecidableEq, Repr

/-- `Page::is_locked_changed`: true iff a new `comments_enabled` value is
present, the old post was found, and the new value differs from the negation
of the old `locked` flag. -/
def Page.is_locked_changed {E : Type} (old_post : Except E ApubPost)
    (new_comments_enabled : Option Bool) : Bool :=
  match new_comments_enabled with
  | some n =>
    match old_post with
    | .ok old => n != !old.locked
    | .error _ => false
  | none => false

/-- `Page::creator`: the Lemmy variant returns its id unchanged; the
Peertube variant finds the entry tagged `Person`, failing with
`PageDoesNotSpecifyCreator` when there is none. -/
def Page.creator (p : Page) : Except LemmyErrorType Url :=
  match p.attributed_to with
  | .Lemmy l => .ok l
  | .Peertube pr =>
    match (AttributedTo.pairList pr).find? (fun a => a.kind == .Person) with
    | some a => .ok a.id
    | none => .error .PageDoesNotSpecifyCreator

/-- A resolved community; `actor_id` is its canonical identity. -/
structure Community where
  actor_id : Url
deriving DecidableEq, Repr

/-- itertools `merge` on the two addressing iterators, as called at
page.rs:232 (`self.to.iter().merge(self.cc.iter())`): at each step the left
head is taken when it compares `<=` the right head, otherwise the right
head.  This is a comparison-based interleaving, not a concatenation. -/
def merge (xs ys : List Url) : List Url :=
  match xs, ys with
  | [], ys => ys
  | xs, [] => xs
  | x :: xs, y :: ys =>
    if x ≤ y then x :: merge xs (y :: ys) else y :: merge (x :: xs) ys
termination_by xs.length + ys.length

/-- The `loop` of page.rs:233-242: dereference candidates in order, returning
the first success; per-candidate failures are swallowed. -/
def dereferenceLoop (deref : Url → Option Community) :
    List Url → Option Community
  | [] => none
  | u :: rest =>
    match deref u with
    | some c => some c
    | none => dereferenceLoop deref rest

/-- Modelled from the spec: `verify_community_matches` (crate::activities,
not under src/) checks that the `audience` identity equals the resolved
community's canonical identity and fails on mismatch. -/
def verify_community_matches (audience : Url) (community_id : Url) :
    Except LemmyErrorType Unit :=
  if audience = community_id then .ok () else .error .InvalidCommunity

/-- The `let community = match ...` of `InCommunity for Page :: community`
(page.rs:230-252): the Lemmy attribution path scans the merged addressing
iterators for the first dereferenceable community, failing with
`NoCommunityFoundInCc` on exhaustion; the Peertube path finds the entry
tagged `Group` (failing with `PageDoesNotSpecifyGroup` if absent) and
dereferences it directly, propagating a dereference failure. -/
def Page.resolveCommunity (deref : Url → Option Community) (p : Page) :
    Except LemmyErrorType Community :=
  match p.attributed_to with
  | .Lemmy _ =>
    match dereferenceLoop deref (merge p.«to» p.cc) with
    | some c => .ok c
    | none => .error .NoCommunityFoundInCc
  | .Peertube pr =>
    match (AttributedTo.pairList pr).find? (fun a => a.kind == .Group) with
    | none => .error .PageDoesNotSpecifyGroup
    | some a =>
      match deref a.id with
      | some c => .ok c
      | none => .error .UpstreamDereferenceFailed

/-- `InCommunity for Page :: community` (page.rs:229-257): resolve the
community, then, when the object carries an `audience` field, check it
against the resolved community's canonical identity. -/
def Page.community (deref : Url → Option Community) (p : Page) :
    Except LemmyErrorType Community :=
  match p.resolveCommunity deref with
  | .error e => .error e
  | .ok community =>
    match p.audience with
    | some audience =>
      match verify_community_matches audience community.actor_id with
      | .ok _ => .ok community
      | .error e => .error e
    | none => .ok community

/-- Follows the claim's words, for comparison with `Page.resolveCommunity`:
the candidate sequence is the concatenation of `to` then `cc`. -/
def Page.resolveCommunityClaim (deref : Url → Option Community) (p : Page) :
    Except LemmyErrorType Community :=
  match p.attributed_to with
  | .Lemmy _ =>
    match dereferenceLoop deref (p.«to» ++ p.cc) with
    | some c => .ok c
    | none => .error .NoCommunityFoundInCc
  | .Peertube pr =>
    match (AttributedTo.pairList pr).find? (fun a => a.kind == .Group) with
    | none => .error .PageDoesNotSpecifyGroup
    | some a =>
      match deref a.id with
      | some c => .ok c
      | none => .error .UpstreamDereferenceFailed

/-- A raw JSON value for the `inReplyTo` field when it is present. -/
inductive JsonValue where
  | null
  | str (s : String)
deriving DecidableEq, Repr

/-- `deserialize_not_present` (page.rs:261-270): only allows deserialization
when the present field is null; a non-null value is an error. -/
def deserialize_not_present : JsonValue → Except String (Option String)
  | .null => .ok none
  | .str _ => .error "Post must not have inReplyTo property"

/-- The raw wire payload of a `Page`, with every field other than
`in_reply_to` already in validated form and `in_reply_to` as found on the
wire (`none` = field absent). -/
structure RawPage where
  kind : PageType
  id : Url
  attributed_to : AttributedTo
  «to» : List Url
  in_reply_to : Option JsonValue
  name : Option String
  cc : List Url
  content : Option String
  media_type : Option MediaTypeMarkdownOrHtml
  source : Option Source
  attachment : List Attachment
  image : Option ImageObject
  comments_enabled : Option Bool
  sensitive : Option Bool
  published : Option Nat
  updated : Option Nat
  language : Option LanguageTag
  audience : Option Url
deriving DecidableEq, Repr

/-- Deserialization of `Page`: the `in_reply_to` field goes through
`deserialize_not_present` when present and through serde `default` (None)
when absent; a field error fails the whole object. -/
def parsePage (r : RawPage) : Except String Page :=
  match
    (match r.in_reply_to with
     | none => Except.ok none
     | some v => deserialize_not_present v) with
  | .error e => .error e
  | .ok irt =>
    .ok
      { kind := r.kind, id := r.id, attributed_to := r.attributed_to,
        «to» := r.«to», in_reply_to := irt, name := r.name, cc := r.cc,
        content := r.content, media_type := r.media_type, source := r.source,
        attachment := r.attachment, image := r.image,
        comments_enabled := r.comments_enabled, sensitive := r.sensitive,
        published := r.published, updated := r.updated,
        language := r.language, audience := r.audience }

/-- Outcome of calling an `ActivityHandler` method: either the call panics
(Rust `unimplemented!()`) or it returns a value. -/
inductive HandlerOutcome (α : Type) where
  | panicked
  | value (a : α)
deriving DecidableEq

/-- `ActivityHandler for Page :: id` (page.rs:212-214): the body is
`unimplemented!()`, which panics unconditionally. -/
def Page.handlerId (_p : Page) : HandlerOutcome Url :=
  .panicked

/-- `ActivityHandler for Page :: actor` (page.rs:215-217): the body is
`unimplemented!()`, which panics unconditionally. -/
def Page.handlerActor (_p : Page) : HandlerOutcome Url :=
  .panicked

/-- `ActivityHandler for Page :: verify` (page.rs:218-220): delegates to
`ApubPost::verify` (external); its outcome is the parameter.  The method
itself never panics. -/
def Page.handlerVerify (verifyOutcome : Except LemmyErrorType Unit)
    (_p : Page) : HandlerOutcome (Except LemmyErrorType Unit) :=
  .value verifyOutcome

/-- `ActivityHandler for Page :: receive` (page.rs:221-224): delegates to
`ApubPost::from_json` (external); its outcome is the parameter.  The method
itself never panics. -/
def Page.handlerReceive (receiveOutcome : Except LemmyErrorType Unit)
    (_p : Page) : HandlerOutcome (Except LemmyErrorType Unit) :=
  .value receiveOutcome

/-- A concrete `Page` used to instantiate theorems with hypotheses. -/
def pageBase : Page :=
  { kind := .Page, id := 1,
    attributed_to := .Lemmy 100,
    «to» := [], in_reply_to := none, name := none, cc := [], content := none,
    media_type := none, source := none, attachment := [], image := none,
    comments_enabled := none, sensitive := none, published := none,
    updated := none, language := none, audience := none }

/-- A concrete `RawPage` used to instantiate theorems with hypotheses. -/
def rawPageBase : RawPage :=
  { kind := .Page, id := 1,
    attributed_to := .Lemmy 100,
    «to» := [], in_reply_to := none, name := none, cc := [], content := none,
    media_type := none, source := none, attachment := [], image := none,
    comments_enabled := none, sensitive := none, published := none,
    updated := none, language := none, audience := none }

/-- A dereference environment where the community urls 10 and 11 both
resolve, each to the community with that canonical identity. -/
def derefTwo : Url → Option Community :=
  fun u => if u = 10 then some ⟨10⟩ else if u = 11 then some ⟨11⟩ else none

/-- A dereference environment where only the community url 11 resolves. -/
def derefEleven : Url → Option Community :=
  fun u => if u = 11 then some ⟨11⟩ else none

/-- A page addressed to community url 11 in `to` and 10 in `cc`. -/
def cexPage : Page :=
  { pageBase with «to» := [11], cc := [10] }

/-- A page addressed to community url 10 whose `audience` field names the
unrelated url 99. -/
def audiencePage : Page :=
  { pageBase with «to» := [10], audience := some 99 }

lemma votesFor_remove (votes : List VoteRow) (p q : Nat) :
    votesFor (PostLike.remove votes p q) p q = [] := by
  induction votes with
  | nil => rfl
  | cons r rest ih =>
    simp only [PostLike.remove, votesFor, List.filter] at ih ⊢
    cases h : (r.person_id == p && r.post_id == q) with
    | true => simp [h, ih]
    | false => simp [h, ih]

lemma votesFor_remove_subset (votes : List VoteRow) (p q : Nat) :
    ∀ r ∈ PostLike.remove votes p q, r ∈ votes := by
  intro r hr
  exact (List.mem_filter.mp hr).1

lemma votesFor_cons_self (votes : List VoteRow) (p q : Nat) (s : Int) :
    votesFor (⟨q, p, s⟩ :: votes) p q = ⟨q, p, s⟩ :: votesFor votes p q := by
  simp [votesFor, List.filter]

lemma dereferenceLoop_all_none (deref : Url → Option Community)
    (l : List Url) (h : ∀ v ∈ l, deref v = none) :
    dereferenceLoop deref l = none := by
  induction l with
  | nil => rfl
  | cons u rest ih =>
    have hu := h u (List.mem_cons_self u rest)
    simp only [dereferenceLoop, hu]
    exact ih (fun v hv => h v (List.mem_cons_of_mem u hv))

lemma dereferenceLoop_first_success (deref : Url → Option Community)
    (l1 : List Url) (u : Url) (l2 : List Url) (c : Community)
    (h1 : ∀ v ∈ l1, deref v = none) (hu : deref u = some c) :
    dereferenceLoop deref (l1 ++ u :: l2) = some c := by
  induction l1 with
  | nil => simp [dereferenceLoop, hu]
  | cons v rest ih =>
    have hv := h1 v (List.mem_cons_self v rest)
    simp only [List.cons_append, dereferenceLoop, hv]
    exact ih (fun w hw => h1 w (List.mem_cons_of_mem v hw))

/-- C1: a successful `like_post` with score in {-1, 0, 1} leaves exactly one
vote row (actor, post, score) when the score is nonzero and zero vote rows
for (actor, post) when the score is 0, whatever the prior vote state. -/
theorem applyVote_row_state (ctx : LikeCtx) (db : Db) (person post : Nat)
    (s : Int) (hs : s = -1 ∨ s = 0 ∨ s = 1)
    (hok : (like_post ctx db person post s).1 = .ok ()) :
    votesFor (like_post ctx db person post s).2.votes person post =
      if s = 0 then [] else [⟨post, person, s⟩] := by
  obtain ⟨dv, pe, bn, cd, cr⟩ := ctx
  rcases hs with rfl | rfl | rfl <;>
    cases dv <;> cases pe <;> cases bn <;> cases cd <;> cases cr <;>
      simp_all [like_post, check_downvotes_enabled, mark_post_as_read,
        votesFor_remove, votesFor_cons_self, PostLike.like]

/-- C1 witness: flipping a prior upvote to a downvote on a fully permissive
site leaves exactly the single row (actor 7, post 3, score -1). -/
theorem applyVote_row_state_witness :
    votesFor (like_post ⟨true, true, false, false, true⟩
        ⟨[⟨3, 7, 1⟩], []⟩ 7 3 (-1)).2.votes 7 3 = [⟨3, 7, -1⟩] := by
  have h := applyVote_row_state ⟨true, true, false, false, true⟩
    ⟨[⟨3, 7, 1⟩], []⟩ 7 3 (-1) (Or.inl rfl) (by rfl)
  simpa using h

/-- C3: for a score outside {-1, 0, 1}, `like_post` never inserts a vote row:
every row present afterwards was already present before the call. -/
theorem applyVote_unrecognized_score (ctx : LikeCtx) (db : Db)
    (person post : Nat) (score : Int)
    (h1 : score ≠ -1) (h2 : score ≠ 0) (h3 : score ≠ 1) :
    ∀ r ∈ (like_post ctx db person post score).2.votes, r ∈ db.votes := by
  intro r hr
  have hda : (score != 0 && (score == 1 || score == -1)) = false := by
    have e1 : (score == 1) = false := beq_eq_false_iff_ne.mpr h3
    have e2 : (score == -1) = false := beq_eq_false_iff_ne.mpr h1
    simp [e1, e2]
  have hck : check_downvotes_enabled score ctx.downvotes_enabled = .ok () := by
    simp [check_downvotes_enabled, h1]
  obtain ⟨dv, pe, bn, cd, cr⟩ := ctx
  cases pe <;> cases bn <;> cases cd <;> cases cr <;>
    simp_all [like_post, mark_post_as_read] <;>
    exact votesFor_remove_subset db.votes person post r hr

/-- C3 witness: submitting score 5 against a database holding an existing
upvote row leaves only rows that were already present. -/
theorem applyVote_unrecognized_score_witness :
    (5 : Int) ≠ -1 ∧ (5 : Int) ≠ 0 ∧ (5 : Int) ≠ 1 ∧
    (∀ r ∈ (like_post ⟨true, true, false, false, true⟩
        ⟨[⟨3, 7, 1⟩], []⟩ 7 3 5).2.votes, r ∈ [VoteRow.mk 3 7 1]) :=
  ⟨by decide, by decide, by decide,
    applyVote_unrecognized_score ⟨true, true, false, false, true⟩
      ⟨[⟨3, 7, 1⟩], []⟩ 7 3 5 (by decide) (by decide) (by decide)⟩

/-- C8: with downvotes administratively disabled, `like_post` with score -1
fails with the downvote error before any mutation: the returned state is the
input state unchanged. -/
theorem applyVote_downvotes_disabled (ctx : LikeCtx) (db : Db)
    (person post : Nat) (h : ctx.downvotes_enabled = false) :
    like_post ctx db person post (-1) = (.error .DownvoteNotAllowed, db) := by
  simp [like_post, check_downvotes_enabled, h]

/-- C8 witness: on a site with downvotes disabled, a downvote on a post with
an existing upvote row fails and leaves the database untouched. -/
theorem applyVote_downvotes_disabled_witness :
    like_post ⟨false, true, false, false, true⟩ ⟨[⟨3, 7, 1⟩], []⟩ 7 3 (-1) =
      (.error .DownvoteNotAllowed, ⟨[⟨3, 7, 1⟩], []⟩) :=
  applyVote_downvotes_disabled ⟨false, true, false, false, true⟩
    ⟨[⟨3, 7, 1⟩], []⟩ 7 3 rfl

lemma group_beq_person :
    (PersonOrGroupType.Group == PersonOrGroupType.Person) = false := by decide

lemma person_beq_person :
    (PersonOrGroupType.Person == PersonOrGroupType.Person) = true := by decide

/-- C6: `Page::creator` returns the Lemmy identity unchanged; on the
Peertube pair it returns the identity of the entry tagged Person wherever it
sits, and fails with `PageDoesNotSpecifyCreator` (spec name: MissingCreator)
when neither entry is tagged Person. -/
theorem creator_resolution (p : Page) :
    (∀ x, p.attributed_to = .Lemmy x → p.creator = .ok x) ∧
    (∀ a b, p.attributed_to = .Peertube (a, b) →
      ((a.kind ≠ .Person → b.kind ≠ .Person →
          p.creator = .error .PageDoesNotSpecifyCreator) ∧
       (a.kind = .Person → p.creator = .ok a.id) ∧
       (a.kind ≠ .Person → b.kind = .Person → p.creator = .ok b.id))) := by
  constructor
  · intro x hx
    simp [Page.creator, hx]
  · intro a b hab
    refine ⟨?_, ?_, ?_⟩
    · intro ha hb
      cases hak : a.kind <;> cases hbk : b.kind <;>
        simp_all [Page.creator, AttributedTo.pairList, List.find?,
          group_beq_person]
    · intro ha
      simp [Page.creator, hab, AttributedTo.pairList, List.find?, ha]
    · intro ha hb
      cases hak : a.kind <;>
        simp_all [Page.creator, AttributedTo.pairList, List.find?,
          group_beq_person, person_beq_person]

/-- C6 witness: a Peertube attribution listing the group first and the
person second resolves to the person's identity. -/
theorem creator_resolution_witness :
    Page.creator { pageBase with
      attributed_to := AttributedTo.Peertube (⟨.Group, 20⟩, ⟨.Person, 10⟩) } =
      .ok 10 :=
  ((creator_resolution { pageBase with
      attributed_to := AttributedTo.Peertube (⟨.Group, 20⟩, ⟨.Person, 10⟩) }).2
      ⟨.Group, 20⟩ ⟨.Person, 10⟩ rfl).2.2 (by decide) rfl

/-- C7: `Page::is_locked_changed` is true exactly when a new
comments-enabled value is present, the prior object lookup succeeded, and
the new value differs from the negation of the prior locked flag; it is
false whenever the flag is absent or the lookup failed. -/
theorem isModAction_characterization {E : Type} (old_post : Except E ApubPost)
    (f : Option Bool) :
    (Page.is_locked_changed old_post f = true ↔
      ∃ n, f = some n ∧ ∃ old, old_post = .ok old ∧ n ≠ !old.locked) ∧
    (f = none → Page.is_locked_changed old_post f = false) ∧
    (∀ e, old_post = .error e → Page.is_locked_changed old_post f = false) := by
  refine ⟨?_, ?_, ?_⟩
  · cases f with
    | none => simp [Page.is_locked_changed]
    | some n =>
      cases old_post with
      | error e => simp [Page.is_locked_changed]
      | ok old =>
        constructor
        · intro h
          refine ⟨n, rfl, old, rfl, ?_⟩
          simpa [Page.is_locked_changed] using h
        · rintro ⟨n2, hn2, old2, hold2, hne⟩
          cases hn2
          cases hold2
          simpa [Page.is_locked_changed] using hne
  · rintro rfl
    simp [Page.is_locked_changed]
  · rintro e rfl
    cases f <;> simp [Page.is_locked_changed]

/-- C7 witness: an update carrying comments_enabled = false against a found,
unlocked post (locked = false, so the unchanged wire value would be true) is
detected as a mod action. -/
theorem isModAction_characterization_witness :
    Page.is_locked_changed (E := Unit) (.ok ⟨false⟩) (some false) = true :=
  (isModAction_characterization (E := Unit) (.ok ⟨false⟩) (some false)).1.mpr
    ⟨false, rfl, ⟨false⟩, rfl, by decide⟩

/-- C5: a payload whose inReplyTo field is present and non-null fails to
parse as a Page regardless of all other fields, while a payload with the
field absent or null is not rejected on that account. -/
theorem inReplyTo_rejection (r : RawPage) :
    (∀ s, r.in_reply_to = some (.str s) →
      parsePage r = .error "Post must not have inReplyTo property") ∧
    ((r.in_reply_to = none ∨ r.in_reply_to = some .null) →
      ∃ p, parsePage r = .ok p) := by
  constructor
  · intro s hs
    simp [parsePage, hs, deserialize_not_present]
  · rintro (h | h) <;>
      exact ⟨{ kind := r.kind, id := r.id, attributed_to := r.attributed_to,
               «to» := r.«to», in_reply_to := none, name := r.name,
               cc := r.cc, content := r.content, media_type := r.media_type,
               source := r.source, attachment := r.attachment,
               image := r.image, comments_enabled := r.comments_enabled,
               sensitive := r.sensitive, published := r.published,
               updated := r.updated, language := r.language,
               audience := r.audience },
             by simp [parsePage, h, deserialize_not_present]⟩

/-- C5 witness: the base payload with inReplyTo set to a non-null string
fails to parse, and with inReplyTo null it parses. -/
theorem inReplyTo_rejection_witness :
    parsePage { rawPageBase with in_reply_to := some (.str "https://x/c/1") } =
      .error "Post must not have inReplyTo property" ∧
    ∃ p, parsePage { rawPageBase with in_reply_to := some .null } = .ok p :=
  ⟨(inReplyTo_rejection
      { rawPageBase with in_reply_to := some (.str "https://x/c/1") }).1
      "https://x/c/1" rfl,
   (inReplyTo_rejection { rawPageBase with in_reply_to := some .null }).2
      (Or.inr rfl)⟩

/-- C9: each of the three attachment wire shapes (Link, Image, Document)
carrying a given (url, altText) pair parses and then answers `url()` and
`alt_text()` with exactly that pair. -/
theorem attachment_roundtrip (u : Url) (a : Option String) :
    ((parseAttachment (linkShape u a)).map Attachment.url = some u ∧
     (parseAttachment (linkShape u a)).map Attachment.alt_text = some a) ∧
    ((parseAttachment (imageShape u a)).map Attachment.url = some u ∧
     (parseAttachment (imageShape u a)).map Attachment.alt_text = some a) ∧
    ((parseAttachment (documentShape u a)).map Attachment.url = some u ∧
     (parseAttachment (documentShape u a)).map Attachment.alt_text = some a) := by
  refine ⟨⟨?_, ?_⟩, ⟨?_, ?_⟩, ⟨?_, ?_⟩⟩ <;>
    simp [parseAttachment, parseLink, parseImage, parseDocument, linkShape,
      imageShape, documentShape, Attachment.url, Attachment.alt_text]

/-- C10: on every `Page`, the `ActivityHandler` methods `id` and `actor`
panic unconditionally (`unimplemented!()`), while `verify` and `receive`
return without panicking whatever their delegate's outcome. -/
theorem activityHandler_partially_callable (p : Page) :
    p.handlerId = .panicked ∧ p.handlerActor = .panicked ∧
    (∀ v, p.handlerVerify v ≠ .panicked) ∧
    (∀ r, p.handlerReceive r ≠ .panicked) := by
  refine ⟨rfl, rfl, ?_, ?_⟩ <;> intro x h <;>
    simp [Page.handlerVerify, Page.handlerReceive] at h

/-- C2 counterexample: with `to = [11]`, `cc = [10]` and both urls
dereferencing successfully, the code's candidate sequence is the itertools
merge `[10, 11]` — it resolves to community 10, while the claimed
concatenation `to ++ cc = [11, 10]` would resolve to community 11. -/
theorem communityResolver_concat_counterexample :
    Page.resolveCommunity derefTwo cexPage = .ok ⟨10⟩ ∧
    Page.resolveCommunityClaim derefTwo cexPage = .ok ⟨11⟩ ∧
    Page.resolveCommunity derefTwo cexPage ≠
      Page.resolveCommunityClaim derefTwo cexPage := by
  have h1 : Page.resolveCommunity derefTwo cexPage = .ok ⟨10⟩ := by
    simp [Page.resolveCommunity, cexPage, pageBase, merge, dereferenceLoop,
      derefTwo]
  have h2 : Page.resolveCommunityClaim derefTwo cexPage = .ok ⟨11⟩ := by
    simp [Page.resolveCommunityClaim, cexPage, pageBase, dereferenceLoop,
      derefTwo]
  refine ⟨h1, h2, ?_⟩
  intro h
  rw [h1, h2] at h
  exact absurd (Except.ok.inj h) (by decide)

/-- C2 amended: `Page`'s community resolution follows the claimed algorithm
except that the candidate sequence on the non-DualActor path is the
comparison-based itertools merge of `to` and `cc`, not their concatenation:
when the audience check is moot the entry point agrees with the resolver;
on the Lemmy path the first successfully dereferencing candidate of
`merge to cc` wins regardless of every later candidate, and exhaustion
fails with `NoCommunityFoundInCc` (spec name: NoCommunityFoundInAddressing);
the DualActor path dereferences the entry tagged Group directly, bypassing
the addressing list, and fails with `PageDoesNotSpecifyGroup` when no entry
is tagged Group. -/
theorem communityResolver_merge_algorithm (deref : Url → Option Community)
    (p : Page) (c : Community) :
    (p.audience = none → Page.community deref p = p.resolveCommunity deref) ∧
    (∀ x l1 u l2, p.attributed_to = .Lemmy x →
      merge p.«to» p.cc = l1 ++ u :: l2 → (∀ v ∈ l1, deref v = none) →
      deref u = some c → p.resolveCommunity deref = .ok c) ∧
    (∀ x, p.attributed_to = .Lemmy x →
      (∀ v ∈ merge p.«to» p.cc, deref v = none) →
      p.resolveCommunity deref = .error .NoCommunityFoundInCc) ∧
    (∀ pr g, p.attributed_to = .Peertube pr →
      (AttributedTo.pairList pr).find? (fun a => a.kind == .Group) = some g →
      p.resolveCommunity deref =
        (match deref g.id with
         | some c2 => .ok c2
         | none => .error .UpstreamDereferenceFailed)) ∧
    (∀ pr, p.attributed_to = .Peertube pr →
      (AttributedTo.pairList pr).find? (fun a => a.kind == .Group) = none →
      p.resolveCommunity deref = .error .PageDoesNotSpecifyGroup) := by
  refine ⟨?_, ?_, ?_, ?_, ?_⟩
  · intro h
    cases hres : p.resolveCommunity deref <;>
      simp [Page.community, h, hres]
  · intro x l1 u l2 hatt hmerge hfail hderef
    simp [Page.resolveCommunity, hatt, hmerge,
      dereferenceLoop_first_success deref l1 u l2 c hfail hderef]
  · intro x hatt hfail
    simp [Page.resolveCommunity, hatt, dereferenceLoop_all_none deref _ hfail]
  · intro pr g hatt hfind
    simp [Page.resolveCommunity, hatt, hfind]
  · intro pr hatt hfind
    simp [Page.resolveCommunity, hatt, hfind]

/-- C2 amended witness: with `to = [11]`, `cc = [10]`, merge order
`[10, 11]`, url 10 failing to dereference and url 11 succeeding, resolution
returns community 11. -/
theorem communityResolver_merge_algorithm_witness :
    Page.resolveCommunity derefEleven cexPage = .ok ⟨11⟩ :=
  (communityResolver_merge_algorithm derefEleven cexPage ⟨11⟩).2.1 100 [10] 11
    [] rfl (by simp [cexPage, pageBase, merge]) (by decide) rfl

/-- C4: whenever community resolution succeeds but the object's `audience`
identity differs from the resolved community's canonical identity, the
entry point fails with `InvalidCommunity` (spec name: AudienceMismatch),
on whichever attribution path the resolution ran. -/
theorem audience_mismatch_rejection (deref : Url → Option Community)
    (p : Page) (c : Community) (x : Url)
    (hres : p.resolveCommunity deref = .ok c) (haud : p.audience = some x)
    (hne : x ≠ c.actor_id) :
    Page.community deref p = .error .InvalidCommunity := by
  simp [Page.community, hres, haud, verify_community_matches, hne]

/-- C4 witness: a page resolving to community 10 while carrying
`audience = 99` is rejected with the audience-mismatch error. -/
theorem audience_mismatch_rejection_witness :
    Page.community derefTwo audiencePage = .error .InvalidCommunity :=
  audience_mismatch_rejection derefTwo audiencePage ⟨10⟩ 99
    (by simp [Page.resolveCommunity, audiencePage, pageBase, merge,
        dereferenceLoop, derefTwo])
    rfl (by decide)

end Lemmy
